import Mathlib

/-!
Verification development for the booking and payment reconciliation core of the
flight-booking backend.  The definitions below are a shallow embedding of the
TypeScript services: BookingService, PaymentService (Stripe path), PaymobService
and PaymentTransactionService.  Persistent MongoDB collections are modelled as
lists carried in an explicit state record; timestamps are integers (milliseconds);
monetary amounts are rationals (the code stores JS numbers and converts to cents
with Math.round).  External effects (the Stripe SDK, the Paymob HTTP API, the
crypto HMAC primitive, email sending) are modelled as explicit inputs: the
verification outcome of a signature check and the freshly created provider
intent id are parameters of the corresponding operation.
-/

namespace BackendGrad

/-- Booking.status values used by the code: pending, confirmed, cancelled. -/
inductive BStatus
  | pending
  | confirmed
  | cancelled
deriving DecidableEq

/-- Booking.paymentStatus string values written by the code
(pending, processing, completed, failed, canceled, refunded). -/
inductive BPayStatus
  | pending
  | processing
  | completed
  | failed
  | canceled
  | refunded
deriving DecidableEq

/-- PaymentStatus enum of the payment ledger (payment-status.enum.ts). -/
inductive LedgerStatus
  | pending
  | processing
  | completed
  | failed
  | declined
  | refunded
  | partially_refunded
  | cancelled
  | expired
deriving DecidableEq

/-- Error classes raised by the services (NestJS exception kinds). -/
inductive HttpError
  | badRequest (msg : String)
  | unauthorized (msg : String)
  | forbidden (msg : String)
  | notFound (msg : String)
  | internal (msg : String)
deriving DecidableEq

/-- A booking document (booking.schema.ts), restricted to the fields the
payment/booking core reads or writes.  The nested payment subdocument used by
the Paymob path (payment.paymobOrderId, payment.transactionId, payment.amount,
payment.currency, payment.paidAt, payment.lastError) is flattened into
pay-prefixed fields. -/
structure Booking where
  id : Nat
  userId : Nat
  totalPrice : ℚ
  currency : String
  status : BStatus := .pending
  paymentStatus : BPayStatus := .pending
  paymentIntentId : Option String := none
  paymentCompletedAt : Option Int := none
  createdAt : Int := 0
  updatedAt : Int := 0
  cancelledAt : Option Int := none
  cancellationReason : Option String := none
  payPaymobOrderId : Option Nat := none
  payTransactionId : Option String := none
  payAmount : Option ℚ := none
  payCurrency : Option String := none
  payPaidAt : Option Int := none
  payLastError : Option String := none
deriving DecidableEq

/-- A payment ledger record (payment.schema.ts), one per payment attempt. -/
structure PaymentRecord where
  id : Nat
  userId : Nat
  bookingId : Nat
  amount : ℚ
  currency : String
  provider : String
  status : LedgerStatus
  transactionId : Option String := none
  paidAt : Option Int := none
  refundedAt : Option Int := none
  refundReason : Option String := none
  failureMessage : Option String := none
deriving DecidableEq

/-- The shared persistent state: the bookings collection and the payments
collection, plus a counter supplying fresh ledger ids. -/
structure DB where
  bookings : List Booking := []
  payments : List PaymentRecord := []
  nextPaymentId : Nat := 0
deriving DecidableEq

instance {ε α : Type} [DecidableEq ε] [DecidableEq α] : DecidableEq (Except ε α) :=
  fun x y =>
    match x, y with
    | .ok a, .ok b =>
      if h : a = b then .isTrue (by rw [h])
      else .isFalse (by intro hh; injection hh; contradiction)
    | .error a, .error b =>
      if h : a = b then .isTrue (by rw [h])
      else .isFalse (by intro hh; injection hh; contradiction)
    | .ok _, .error _ => .isFalse (by intro hh; injection hh)
    | .error _, .ok _ => .isFalse (by intro hh; injection hh)

/-- bookingModel.findById. -/
def findBookingById (db : DB) (bid : Nat) : Option Booking :=
  db.bookings.find? (fun b => b.id = bid)

/-- bookingModel.findByIdAndUpdate: applies the patch to the booking with the
given id, leaving every other document (and a missing id) untouched. -/
def updateBookingById (db : DB) (bid : Nat) (f : Booking → Booking) : DB :=
  { db with bookings := db.bookings.map (fun b => if b.id = bid then f b else b) }

/-- paymentModel.findOne on transactionId (PaymentTransactionService.findByTransactionId). -/
def findPaymentByTransactionId (db : DB) (tid : String) : Option PaymentRecord :=
  db.payments.find? (fun p => p.transactionId = some tid)

/-- paymentModel.findOne on bookingId (PaymentTransactionService.findByBookingId). -/
def findPaymentByBookingId (db : DB) (bid : Nat) : Option PaymentRecord :=
  db.payments.find? (fun p => p.bookingId = bid)

/-- paymentModel.findById (PaymentTransactionService.findById). -/
def findPaymentById (db : DB) (pid : Nat) : Option PaymentRecord :=
  db.payments.find? (fun p => p.id = pid)

/-- JS truthiness of an optional string: present and non-empty. -/
def strTruthy : Option String → Bool
  | none => false
  | some s => s ≠ ""

/-- JS Math.round on a non-negative amount: floor of x + 1/2. -/
def jsRound (q : ℚ) : ℤ :=
  ⌊q + 1 / 2⌋

/-- JS String.prototype.startsWith, expressed on the character data so that it
evaluates by reduction. -/
def strStartsWith (s pre : String) : Bool :=
  pre.data.isPrefixOf s.data

/-- JS String.prototype.toUpperCase, expressed on the character data so that it
evaluates by reduction. -/
def strToUpper (s : String) : String :=
  ⟨s.data.map Char.toUpper⟩

namespace BookingService

/-- BookingService.handlePendingBookingsTimeout: the scheduled expiry sweep.
updateMany over the filter (status pending, paymentStatus pending,
createdAt earlier than now minus the configured timeout in minutes), setting
status cancelled and paymentStatus failed.  Emails afterwards are
fire-and-forget and touch no booking state. -/
def handlePendingBookingsTimeout (db : DB) (now : Int) (timeoutMinutes : Int) : DB :=
  let timeoutDate := now - timeoutMinutes * 60 * 1000
  { db with
    bookings := db.bookings.map (fun b =>
      if b.status = .pending ∧ b.paymentStatus = .pending ∧ b.createdAt < timeoutDate then
        { b with status := .cancelled, paymentStatus := .failed }
      else b) }

end BookingService

namespace PaymentTransactionService

/-- CreatePaymentDto: the fields a caller supplies when inserting a ledger
record.  status is optional; createPayment defaults it to pending. -/
structure CreatePaymentDto where
  userId : Nat
  bookingId : Nat
  amount : ℚ
  currency : String
  provider : String
  transactionId : Option String := none
  status : Option LedgerStatus := none

/-- PaymentTransactionService.createPayment: inserts a new record with the
supplied status, or pending when none is given.  Returns the saved record. -/
def createPayment (db : DB) (dto : CreatePaymentDto) : DB × PaymentRecord :=
  let p : PaymentRecord :=
    { id := db.nextPaymentId
      userId := dto.userId
      bookingId := dto.bookingId
      amount := dto.amount
      currency := dto.currency
      provider := dto.provider
      status := dto.status.getD .pending
      transactionId := dto.transactionId }
  ({ db with payments := db.payments ++ [p], nextPaymentId := db.nextPaymentId + 1 }, p)

/-- UpdatePaymentStatusDto: the patch passed to updatePaymentStatus.  Optional
fields are applied only when present (the code spreads the literal object into
a MongoDB set). -/
structure UpdatePaymentStatusDto where
  status : LedgerStatus
  transactionId : Option String := none
  failureMessage : Option String := none

/-- PaymentTransactionService.updatePaymentStatus: findByIdAndUpdate applying
the patch; additionally stamps paidAt when the new status is completed and
refundedAt when it is refunded. -/
def updatePaymentStatus (db : DB) (pid : Nat) (upd : UpdatePaymentStatusDto)
    (now : Int) : DB :=
  { db with
    payments := db.payments.map (fun p =>
      if p.id = pid then
        { p with
          status := upd.status
          transactionId := match upd.transactionId with
            | some t => some t
            | none => p.transactionId
          failureMessage := match upd.failureMessage with
            | some m => some m
            | none => p.failureMessage
          paidAt := if upd.status = .completed then some now else p.paidAt
          refundedAt := if upd.status = .refunded then some now else p.refundedAt }
      else p) }

/-- Result of processRefund: the (possibly updated) state together with either
the refunded record (or none when the payment id was unknown) or the raised
error.  The code throws before writing anything on a rejection, so the state
component equals the input state in every error case. -/
structure RefundResult where
  db : DB
  outcome : Except String (Option PaymentRecord)

/-- PaymentTransactionService.processRefund: looks the record up by id
(missing id resolves to none without error), rejects when the status is not
completed or the requested amount exceeds the recorded amount, and otherwise
sets the status to refunded (amount equal) or partially_refunded (amount
smaller), stamping refundedAt and refundReason. -/
def processRefund (db : DB) (paymentId : Nat) (amount : ℚ) (reason : String)
    (now : Int) : RefundResult :=
  match findPaymentById db paymentId with
  | none => { db := db, outcome := .ok none }
  | some payment =>
    if payment.status ≠ .completed then
      { db := db, outcome := .error "Cannot refund payment with this status" }
    else if amount > payment.amount then
      { db := db, outcome := .error "Refund amount cannot be greater than payment amount" }
    else
      let newStatus : LedgerStatus :=
        if amount = payment.amount then .refunded else .partially_refunded
      let db1 :=
        { db with
          payments := db.payments.map (fun p =>
            if p.id = paymentId then
              { p with
                status := newStatus
                refundedAt := some now
                refundReason := some reason }
            else p) }
      { db := db1, outcome := .ok (findPaymentById db1 paymentId) }

end PaymentTransactionService

namespace PaymentService

/-- The slice of a Stripe PaymentIntent object the handlers read: id, amount in
cents (absent or zero is falsy in the JS guard), currency, livemode, and the
bookingId carried in metadata. -/
structure StripeIntent where
  id : String
  amountCents : Option Int := none
  currency : Option String := none
  livemode : Bool := true
  metadataBookingId : Option Nat := none
deriving DecidableEq

/-- The amount written into the ledger record: paymentIntent.amount divided by
100 when present and truthy (non-zero), else the booking totalPrice fallback. -/
def intentAmountMajor (intent : StripeIntent) (fallback : ℚ) : ℚ :=
  match intent.amountCents with
  | some a => if a ≠ 0 then (a : ℚ) / 100 else fallback
  | none => fallback

/-- The currency written into the ledger record: paymentIntent.currency
upper-cased when truthy, else the booking currency. -/
def intentCurrency (intent : StripeIntent) (fallback : String) : String :=
  match intent.currency with
  | some c => if c ≠ "" then strToUpper c else fallback
  | none => fallback

/-- PaymentService.handlePaymentIntentSucceeded: resolves the booking from the
intent metadata (missing metadata or booking returns without changes), sets the
booking to paymentStatus completed / status confirmed with the intent id and a
fresh paymentCompletedAt, then creates a completed ledger record for the
transaction id unless one already exists.  Email sending touches no state. -/
def handlePaymentIntentSucceeded (db : DB) (intent : StripeIntent) (now : Int) : DB :=
  match intent.metadataBookingId with
  | none => db
  | some bookingId =>
    match findBookingById db bookingId with
    | none => db
    | some _ =>
      let db1 := updateBookingById db bookingId (fun b =>
        { b with
          paymentStatus := .completed
          status := .confirmed
          paymentIntentId := some intent.id
          paymentCompletedAt := some now })
      match findBookingById db1 bookingId with
      | none => db1
      | some updatedBooking =>
        match findPaymentByTransactionId db1 intent.id with
        | some _ => db1
        | none =>
          let paymentData : PaymentTransactionService.CreatePaymentDto :=
            { userId := updatedBooking.userId
              bookingId := updatedBooking.id
              amount := intentAmountMajor intent updatedBooking.totalPrice
              currency := intentCurrency intent updatedBooking.currency
              provider := "stripe"
              transactionId := some intent.id
              status := some .completed }
          (PaymentTransactionService.createPayment db1 paymentData).1

/-- PaymentService.handlePaymentIntentFailed: sets paymentStatus failed and the
intent id on the booking named by the metadata; nothing else changes. -/
def handlePaymentIntentFailed (db : DB) (intent : StripeIntent) : DB :=
  match intent.metadataBookingId with
  | none => db
  | some bookingId =>
    updateBookingById db bookingId (fun b =>
      { b with paymentStatus := .failed, paymentIntentId := some intent.id })

/-- PaymentService.handlePaymentIntentCanceled: sets paymentStatus canceled and
the intent id on the booking named by the metadata. -/
def handlePaymentIntentCanceled (db : DB) (intent : StripeIntent) : DB :=
  match intent.metadataBookingId with
  | none => db
  | some bookingId =>
    updateBookingById db bookingId (fun b =>
      { b with paymentStatus := .canceled, paymentIntentId := some intent.id })

/-- The parsed shape of an inbound Stripe event body: id, the object
discriminator, the event type, whether a data member is present, and the
payment intent it carries. -/
structure StripeEvent where
  id : String
  objectKind : String := "event"
  type : String
  hasData : Bool := true
  intent : StripeIntent
deriving DecidableEq

/-- The structural fallback validation of handleStripeWebhook: object is the
literal event, type and id truthy, data present, id starts with evt_. -/
def stripeEventStructValid (e : StripeEvent) : Bool :=
  e.objectKind == "event" && e.type ≠ "" && e.hasData && e.id ≠ "" &&
    strStartsWith e.id "evt_"

/-- The environment configuration read by handleStripeWebhook.  Each field is
the raw optional environment string. -/
structure StripeConfig where
  webhookSecret : Option String := none
  nodeEnv : Option String := none
  allowWebhookFallbackEnv : Option String := none
  bypassWebhookVerificationEnv : Option String := none
deriving DecidableEq

/-- ALLOW_WEBHOOK_FALLBACK gates the unverified-processing fallback; the code
compares the raw env string against the literal false, so every other value
(including an unset variable) enables the fallback. -/
def allowFallback (cfg : StripeConfig) : Bool :=
  cfg.allowWebhookFallbackEnv ≠ some "false"

/-- Dispatch on the event type (the switch at the end of handleStripeWebhook). -/
def dispatchStripeEvent (db : DB) (event : StripeEvent) (now : Int) : DB :=
  match event.type with
  | "payment_intent.succeeded" => handlePaymentIntentSucceeded db event.intent now
  | "payment_intent.payment_failed" => handlePaymentIntentFailed db event.intent
  | "payment_intent.canceled" => handlePaymentIntentCanceled db event.intent
  | _ => db

/-- PaymentService.handleStripeWebhook.  rawParsed is the JSON parse of the raw
body (none when unparseable); signaturePresent tells whether a signature header
arrived; sigVerifies is the outcome of the Stripe SDK constructEvent
verification of (body, signature, secret).  The code: rejects up front only
when the secret is unconfigured while neither development mode nor the fallback
is enabled; bypasses verification entirely in development or under
BYPASS_WEBHOOK_VERIFICATION when the secret or signature is missing; otherwise
verifies, and on any verification failure falls back (when allowed) to
processing a structurally valid event unverified, else rejects. -/
def handleStripeWebhook (db : DB) (cfg : StripeConfig) (rawParsed : Option StripeEvent)
    (signaturePresent : Bool) (sigVerifies : Bool) (now : Int) : Except HttpError DB :=
  let isDevelopment := cfg.nodeEnv = some "development"
  if cfg.webhookSecret = none ∧ ¬isDevelopment ∧ ¬allowFallback cfg then
    .error (.badRequest "Webhook secret not configured")
  else
    let shouldBypassVerification :=
      isDevelopment ∨ cfg.bypassWebhookVerificationEnv = some "true"
    -- The catch branch of the verification try block: the production fallback.
    let fallbackPath : Except HttpError StripeEvent :=
      if allowFallback cfg then
        match rawParsed with
        | some e =>
          if stripeEventStructValid e then .ok e
          else .error (.badRequest "Invalid webhook signature and invalid webhook structure")
        | none => .error (.badRequest "Invalid webhook signature and unparseable body")
      else .error (.badRequest "Invalid webhook signature")
    let eventRes : Except HttpError StripeEvent :=
      if shouldBypassVerification ∧ (cfg.webhookSecret = none ∨ ¬signaturePresent) then
        match rawParsed with
        | some e => .ok e
        | none => fallbackPath
      else if sigVerifies then
        match rawParsed with
        | some e => .ok e
        | none => fallbackPath
      else fallbackPath
    match eventRes with
    | .error e => .error e
    | .ok event => .ok (dispatchStripeEvent db event now)

/-- Result of createPaymentIntent: the resulting state, whether the Stripe API
was called, and the returned intent id or the raised error. -/
structure CreateIntentResult where
  db : DB
  providerCalled : Bool
  outcome : Except HttpError String
deriving DecidableEq

/-- PaymentService.createPaymentIntent: finds the booking, converts both the
stored totalPrice and the requested amount to cents with Math.round and rejects
on any difference before the Stripe call; on a match it calls Stripe (the fresh
intent id is the external input newIntentId) and marks the booking processing
with the intent id stored. -/
def createPaymentIntent (db : DB) (bookingId : Nat) (amount : ℚ)
    (newIntentId : String) : CreateIntentResult :=
  match findBookingById db bookingId with
  | none => { db := db, providerCalled := false, outcome := .error (.notFound "Booking not found") }
  | some booking =>
    let expectedAmount := jsRound (booking.totalPrice * 100)
    let providedAmount := jsRound (amount * 100)
    if expectedAmount ≠ providedAmount then
      { db := db, providerCalled := false, outcome := .error (.badRequest "Amount mismatch") }
    else
      let db1 := updateBookingById db bookingId (fun b =>
        { b with paymentIntentId := some newIntentId, paymentStatus := .processing })
      { db := db1, providerCalled := true, outcome := .ok newIntentId }

end PaymentService

namespace PaymobService

/-- JS truthiness of an optional number: present and non-zero. -/
def natTruthy : Option Nat → Bool
  | none => false
  | some n => n ≠ 0

/-- The slice of the Paymob webhook payload the handler reads
(payload.obj and payload.obj.order): transaction id, the pending and success
flags, amount in cents, the Paymob order id, and the merchant order id the
order carries (the booking id, when present). -/
structure PaymobTx where
  id : Nat
  pending : Bool
  success : Bool
  amountCents : Int
  orderId : Option Nat := none
  merchantOrderId : Option Nat := none
deriving DecidableEq

/-- The classification processWebhook returns to handleWebhook. -/
structure PaymobResult where
  transactionId : Nat
  orderId : Nat
  amount : ℚ
  isSuccess : Bool
  isPending : Bool
  isError : Bool
deriving DecidableEq

/-- PaymobService.verifyWebhookSignature: returns true with only a warning when
no HMAC secret is configured; otherwise compares the sha512 HMAC computed over
the concatenated transaction fields (computedHmac, the external crypto result)
against the received header value. -/
def verifyWebhookSignature (secretConfigured : Bool) (computedHmac received : String) :
    Bool :=
  if ¬secretConfigured then true else computedHmac == received

/-- PaymobService.processWebhook: verifies the HMAC only when both the header
and the configured secret are truthy (raising Unauthorized on mismatch),
rejects a payload missing the transaction or order id, and classifies the
outcome from the success and pending flags. -/
def processWebhook (tx : PaymobTx) (hmacHeader : Option String)
    (secret : Option String) (computedHmac : String) : Except HttpError PaymobResult :=
  let amount : ℚ := (tx.amountCents : ℚ) / 100
  let verifyStep : Except HttpError Unit :=
    if strTruthy hmacHeader ∧ strTruthy secret then
      if ¬ verifyWebhookSignature (strTruthy secret) computedHmac (hmacHeader.getD "") then
        .error (.unauthorized "Invalid webhook signature")
      else .ok ()
    else .ok ()
  match verifyStep with
  | .error e => .error e
  | .ok () =>
    if tx.id = 0 ∨ ¬ natTruthy tx.orderId then
      .error (.badRequest "Invalid webhook payload")
    else
      .ok { transactionId := tx.id
            orderId := tx.orderId.getD 0
            amount := amount
            isSuccess := tx.success
            isPending := tx.pending
            isError := !tx.success && !tx.pending }

/-- PaymobService.handleWebhook: parses the body, resolves the booking from the
merchant order id (falling back to a lookup by stored Paymob order id),
classifies the event through processWebhook, and applies the success, pending
or failure transition to the booking and to the ledger record found by booking
id (creating one when none exists).  Raw provider-response blobs written into
lastError, failureMessage and providerResponse are represented by a fixed
marker string. -/
def handleWebhook (db : DB) (rawParsed : Option PaymobTx) (hmacSignature : Option String)
    (secret : Option String) (computedHmac : String) (now : Int) : Except HttpError DB :=
  match rawParsed with
  | none => .error (.internal "Failed to process payment webhook")
  | some tx =>
    let merchantOrderId : Option Nat :=
      match tx.merchantOrderId with
      | some m => some m
      | none =>
        if natTruthy tx.orderId then
          match db.bookings.find? (fun b => b.payPaymobOrderId = tx.orderId) with
          | some booking => some booking.id
          | none => none
        else none
    match merchantOrderId with
    | none => .error (.badRequest "Missing merchant_order_id in webhook payload and no fallback found")
    | some mid =>
      match findBookingById db mid with
      | none => .error (.notFound "Booking not found")
      | some booking =>
        match processWebhook tx hmacSignature secret computedHmac with
        | .error e => .error e
        | .ok result =>
          let tid := toString result.transactionId
          if result.isSuccess then
            let db1 := updateBookingById db mid (fun b =>
              { b with
                paymentStatus := .completed
                status := .confirmed
                payTransactionId := some tid
                payAmount := some result.amount
                payCurrency := some "EGP"
                payPaidAt := some now
                updatedAt := now })
            match findPaymentByBookingId db1 mid with
            | some existingPayment =>
              .ok (PaymentTransactionService.updatePaymentStatus db1 existingPayment.id
                { status := .completed, transactionId := some tid } now)
            | none =>
              let paymentData : PaymentTransactionService.CreatePaymentDto :=
                { userId := booking.userId
                  bookingId := booking.id
                  amount := result.amount
                  currency := "EGP"
                  provider := "paymob"
                  transactionId := some tid }
              .ok (PaymentTransactionService.createPayment db1 paymentData).1
          else if result.isPending then
            let db1 := updateBookingById db mid (fun b =>
              { b with
                paymentStatus := .pending
                payTransactionId := some tid
                updatedAt := now })
            match findPaymentByBookingId db1 mid with
            | some existingPayment =>
              .ok (PaymentTransactionService.updatePaymentStatus db1 existingPayment.id
                { status := .processing, transactionId := some tid } now)
            | none =>
              let paymentData : PaymentTransactionService.CreatePaymentDto :=
                { userId := booking.userId
                  bookingId := booking.id
                  amount := result.amount
                  currency := "EGP"
                  provider := "paymob"
                  transactionId := some tid }
              .ok (PaymentTransactionService.createPayment db1 paymentData).1
          else if result.isError then
            let db1 := updateBookingById db mid (fun b =>
              { b with
                paymentStatus := .failed
                payTransactionId := some tid
                payLastError := some "providerResponse"
                updatedAt := now })
            match findPaymentByBookingId db1 mid with
            | some existingPayment =>
              .ok (PaymentTransactionService.updatePaymentStatus db1 existingPayment.id
                { status := .failed, transactionId := some tid,
                  failureMessage := some "providerResponse" } now)
            | none =>
              let paymentData : PaymentTransactionService.CreatePaymentDto :=
                { userId := booking.userId
                  bookingId := booking.id
                  amount := result.amount
                  currency := "EGP"
                  provider := "paymob"
                  transactionId := some tid }
              let created := PaymentTransactionService.createPayment db1 paymentData
              .ok (PaymentTransactionService.updatePaymentStatus created.1 created.2.id
                { status := .failed, failureMessage := some "providerResponse" } now)
          else .ok db

end PaymobService

namespace BookingService

/-- FlightType enum of the booking DTO (create-booking.dto.ts). -/
inductive FlightType
  | GO
  | RETURN
deriving DecidableEq

/-- BookingType enum of the booking DTO. -/
inductive BookingType
  | ONE_WAY
  | ROUND_TRIP
deriving DecidableEq

/-- One entry of the round-trip flightData array, restricted to the fields the
validation reads; dates are millisecond timestamps (new Date comparison). -/
structure FlightLeg where
  flightID : String
  typeOfFlight : FlightType
  departureDate : Int
  arrivalDate : Int
deriving DecidableEq

/-- CreateBookingDto, restricted to the fields createBooking and its validation
read. -/
structure CreateBookingDto where
  bookingType : Option BookingType := none
  flightData : Option (List FlightLeg) := none
  flightID : Option String := none
  originAirportCode : Option String := none
  destinationAirportCode : Option String := none
  departureDate : Option Int := none
  arrivalDate : Option Int := none
  totalPrice : ℚ
  currency : String
deriving DecidableEq

/-- BookingService.validateBookingData: round-trip requests need a non-empty
flightData of exactly two legs in which a GO leg and a RETURN leg are both
found, with the RETURN departure strictly after the GO arrival; one-way
requests need the legacy single-leg fields. -/
def validateBookingData (dto : CreateBookingDto) (bookingType : BookingType) :
    Except HttpError Unit :=
  match bookingType with
  | .ROUND_TRIP =>
    match dto.flightData with
    | none => .error (.badRequest "Flight data is required for round-trip bookings")
    | some legs =>
      if legs.length = 0 then
        .error (.badRequest "Flight data is required for round-trip bookings")
      else if legs.length ≠ 2 then
        .error (.badRequest "Round-trip bookings must have exactly 2 flights (GO and RETURN)")
      else
        match legs.find? (fun f => f.typeOfFlight = .GO),
              legs.find? (fun f => f.typeOfFlight = .RETURN) with
        | some goFlight, some returnFlight =>
          if returnFlight.departureDate ≤ goFlight.arrivalDate then
            .error (.badRequest "Return flight must depart after the arrival of the outbound flight")
          else .ok ()
        | _, _ =>
          .error (.badRequest "Round-trip bookings must have one GO flight and one RETURN flight")
  | .ONE_WAY =>
    if ¬ strTruthy dto.flightID ∨ ¬ strTruthy dto.originAirportCode ∨
        ¬ strTruthy dto.destinationAirportCode ∨ dto.departureDate = none ∨
        dto.arrivalDate = none then
      .error (.badRequest "All flight details are required for one-way bookings")
    else .ok ()

/-- Result of createBooking: the resulting state and either the persisted
booking or the raised error; validation throws before anything is saved, so
the state component equals the input state in every error case. -/
structure CreateBookingResult where
  db : DB
  outcome : Except HttpError Booking

/-- BookingService.createBooking: defaults the booking type to one-way,
validates, and persists a fresh pending/pending booking.  Reference-code
generation and best-effort seat assignment touch no field this core reads. -/
def createBooking (db : DB) (userId : Nat) (dto : CreateBookingDto)
    (newId : Nat) (now : Int) : CreateBookingResult :=
  let bookingType := dto.bookingType.getD .ONE_WAY
  match validateBookingData dto bookingType with
  | .error e => { db := db, outcome := .error e }
  | .ok () =>
    let booking : Booking :=
      { id := newId
        userId := userId
        totalPrice := dto.totalPrice
        currency := dto.currency
        status := .pending
        paymentStatus := .pending
        createdAt := now
        updatedAt := now }
    { db := { db with bookings := db.bookings ++ [booking] }, outcome := .ok booking }

/-- BookingService.cancelBooking: only the owner may cancel, only a confirmed
booking is cancellable; the transition sets status cancelled and stamps
cancelledAt and the reason. -/
def cancelBooking (db : DB) (bookingId userId : Nat) (reason : Option String)
    (now : Int) : Except HttpError DB :=
  match findBookingById db bookingId with
  | none => .error (.notFound "Booking not found")
  | some booking =>
    if booking.userId ≠ userId then
      .error (.forbidden "You are not authorized to cancel this booking")
    else if booking.status = .cancelled then
      .error (.badRequest "Booking is already cancelled")
    else if booking.status ≠ .confirmed then
      .error (.badRequest "This booking cannot be cancelled")
    else
      .ok (updateBookingById db bookingId (fun b =>
        { b with
          status := .cancelled
          cancellationReason := reason
          cancelledAt := some now }))

end BookingService

/-!
Concrete sample data used by counterexamples and witnesses.
-/

/-- A freshly created booking: pending/pending, never paid, created at time 0. -/
def bookingPP : Booking :=
  { id := 1, userId := 7, totalPrice := 1500, currency := "USD" }

/-- A state holding just the fresh booking and an empty ledger. -/
def dbPP : DB :=
  { bookings := [bookingPP] }

/-- A confirmed and fully paid booking (the state reached after a SUCCESS
webhook), whose stored wallet transaction id is 42. -/
def bookingCC : Booking :=
  { id := 1, userId := 7, totalPrice := 1500, currency := "USD",
    status := .confirmed, paymentStatus := .completed,
    paymentCompletedAt := some 50, payTransactionId := some "42" }

/-- A state holding the confirmed booking. -/
def dbCC : DB :=
  { bookings := [bookingCC] }

/-- A successful Stripe payment intent for booking 1 over 1500.00 USD. -/
def intentPi1 : PaymentService.StripeIntent :=
  { id := "pi_1", amountCents := some 150000, currency := some "usd",
    metadataBookingId := some 1 }

/-- A structurally well-formed Stripe succeeded event carrying intentPi1. -/
def stripeEvtPi1 : PaymentService.StripeEvent :=
  { id := "evt_1", type := "payment_intent.succeeded", intent := intentPi1 }

/-- The default Stripe webhook configuration: secret configured, no
fallback-related environment variable set. -/
def defaultStripeCfg : PaymentService.StripeConfig :=
  { webhookSecret := some "whsec_test" }

/-- A Paymob SUCCESS transaction (id 42) for booking 1 over 1500.00. -/
def txSuccess : PaymobService.PaymobTx :=
  { id := 42, pending := false, success := true, amountCents := 150000,
    orderId := some 9, merchantOrderId := some 1 }

/-- The same Paymob transaction delivered as PENDING (out of order). -/
def txPending : PaymobService.PaymobTx :=
  { id := 42, pending := true, success := false, amountCents := 150000,
    orderId := some 9, merchantOrderId := some 1 }

/-- A completed ledger record over 1500.00 USD for booking 1. -/
def paymentCompleted : PaymentRecord :=
  { id := 5, userId := 7, bookingId := 1, amount := 1500, currency := "USD",
    provider := "stripe", status := .completed, transactionId := some "pi_1",
    paidAt := some 60 }

/-- A state holding the confirmed booking and its completed payment record. -/
def dbRefund : DB :=
  { bookings := [bookingCC], payments := [paymentCompleted], nextPaymentId := 6 }

/-- A first outbound flight leg. -/
def legGO1 : BookingService.FlightLeg :=
  { flightID := "F1", typeOfFlight := .GO, departureDate := 0, arrivalDate := 10 }

/-- A second outbound flight leg (an invalid companion to legGO1). -/
def legGO2 : BookingService.FlightLeg :=
  { flightID := "F2", typeOfFlight := .GO, departureDate := 20, arrivalDate := 30 }

/-- A round-trip booking request holding two OUTBOUND legs and no RETURN. -/
def dtoTwoGo : BookingService.CreateBookingDto :=
  { bookingType := some .ROUND_TRIP, flightData := some [legGO1, legGO2],
    totalPrice := 1500, currency := "USD" }

/-- The round-trip validity predicate exactly as the specification words it:
exactly two legs, exactly one OUTBOUND (GO) and one RETURN, and every
GO/RETURN pairing has the RETURN departure strictly after the GO arrival. -/
def claimValidRoundTrip (legs : List BookingService.FlightLeg) : Prop :=
  legs.length = 2 ∧
  legs.countP (fun f => f.typeOfFlight = .GO) = 1 ∧
  legs.countP (fun f => f.typeOfFlight = .RETURN) = 1 ∧
  ∀ g ∈ legs, ∀ r ∈ legs, g.typeOfFlight = .GO → r.typeOfFlight = .RETURN →
    g.arrivalDate < r.departureDate

instance (legs : List BookingService.FlightLeg) : Decidable (claimValidRoundTrip legs) := by
  unfold claimValidRoundTrip
  infer_instance

/-!
Helper lemmas about the list-backed collections.
-/

/-- A conditional in-place update keyed on the id is transparent to a lookup by
that id, provided the patch preserves the id (payments version). -/
theorem findPayment_map_update (l : List PaymentRecord) (pid : Nat)
    (f : PaymentRecord → PaymentRecord) (hf : ∀ p, (f p).id = p.id) :
    (l.map (fun p => if p.id = pid then f p else p)).find? (fun p => p.id = pid) =
      (l.find? (fun p => p.id = pid)).map f := by
  induction l with
  | nil => rfl
  | cons a l ih =>
    by_cases h : a.id = pid
    · simp [List.find?_cons, h, hf]
    · simp [List.find?_cons, h, ih]

/-- A conditional in-place update keyed on the id is transparent to a lookup by
that id, provided the patch preserves the id (bookings version). -/
theorem findBooking_map_update (l : List Booking) (bid : Nat)
    (f : Booking → Booking) (hf : ∀ b, (f b).id = b.id) :
    (l.map (fun b => if b.id = bid then f b else b)).find? (fun b => b.id = bid) =
      (l.find? (fun b => b.id = bid)).map f := by
  induction l with
  | nil => rfl
  | cons a l ih =>
    by_cases h : a.id = bid
    · simp [List.find?_cons, h, hf]
    · simp [List.find?_cons, h, ih]

/-!
Claim theorems.
-/

/-- Claim C5: the expiry sweep never modifies a booking whose paymentStatus is
anything other than pending, regardless of age; a pending/pending booking older
than the configured timeout is cancelled (status cancelled, paymentStatus
failed); and re-running the sweep on the resulting state produces no further
change. -/
theorem expiry_sweep_frame_and_idempotent (db : DB) (now timeoutMinutes : Int)
    (i : Nat) (b : Booking) (hb : db.bookings[i]? = some b) :
    (b.paymentStatus ≠ .pending →
      (BookingService.handlePendingBookingsTimeout db now timeoutMinutes).bookings[i]? =
        some b) ∧
    (b.status = .pending → b.paymentStatus = .pending →
        b.createdAt < now - timeoutMinutes * 60 * 1000 →
      (BookingService.handlePendingBookingsTimeout db now timeoutMinutes).bookings[i]? =
        some { b with status := .cancelled, paymentStatus := .failed }) ∧
    BookingService.handlePendingBookingsTimeout
        (BookingService.handlePendingBookingsTimeout db now timeoutMinutes) now timeoutMinutes =
      BookingService.handlePendingBookingsTimeout db now timeoutMinutes := by
  unfold BookingService.handlePendingBookingsTimeout
  refine ⟨?_, ?_, ?_⟩
  · intro hps
    simp only [List.getElem?_map, hb, Option.map_some']
    rw [if_neg]
    intro hcond
    exact hps hcond.2.1
  · intro h1 h2 h3
    simp only [List.getElem?_map, hb, Option.map_some']
    rw [if_pos ⟨h1, h2, h3⟩]
  · simp only [List.map_map]
    congr 1
    apply List.map_congr_left
    intro a _
    by_cases h : a.status = .pending ∧ a.paymentStatus = .pending ∧
        a.createdAt < now - timeoutMinutes * 60 * 1000
    · simp only [Function.comp_apply, if_pos h]
      rw [if_neg]
      intro hcond
      exact absurd hcond.1 (by simp)
    · simp only [Function.comp_apply, if_neg h]

/-- Witness for C5: a confirmed, completed booking is untouched by a sweep run
well past its age. -/
theorem expiry_sweep_frame_and_idempotent_witness :
    (BookingService.handlePendingBookingsTimeout dbCC 360000 5).bookings[0]? =
      some bookingCC :=
  (expiry_sweep_frame_and_idempotent dbCC 360000 5 0 bookingCC (by decide)).1 (by decide)

/-- Counterexample to claim C6 as stated: a pending/pending booking created at
time 0 and swept past the 5-minute timeout ends as cancelled/failed, but its
cancelledAt is still null, contradicting the claimed non-null stamp. -/
theorem expiry_sweep_no_cancelledAt_counterexample :
    ((BookingService.handlePendingBookingsTimeout dbPP 360000 5).bookings.map
        (fun b => (b.status, b.paymentStatus, b.cancelledAt))) =
      [(BStatus.cancelled, BPayStatus.failed, (none : Option Int))] := by decide

/-- Claim C6 (amended): after the timeout one sweep run leaves a never-paid
booking at status cancelled and paymentStatus failed, with every other field,
cancelledAt included, unchanged (so cancelledAt remains null for a booking the
user never cancelled). -/
theorem expiry_sweep_cancel_keeps_cancelledAt (db : DB) (now timeoutMinutes : Int)
    (i : Nat) (b : Booking) (hb : db.bookings[i]? = some b)
    (h1 : b.status = .pending) (h2 : b.paymentStatus = .pending)
    (h3 : b.createdAt < now - timeoutMinutes * 60 * 1000) :
    (BookingService.handlePendingBookingsTimeout db now timeoutMinutes).bookings[i]? =
      some { b with status := .cancelled, paymentStatus := .failed } ∧
    ((BookingService.handlePendingBookingsTimeout db now timeoutMinutes).bookings[i]?.map
        (fun x => x.cancelledAt)) = some b.cancelledAt := by
  unfold BookingService.handlePendingBookingsTimeout
  simp only [List.getElem?_map, hb, Option.map_some']
  rw [if_pos ⟨h1, h2, h3⟩]
  exact ⟨rfl, rfl⟩

/-- Witness for the amended C6: the sample fresh booking swept after six
minutes. -/
theorem expiry_sweep_cancel_keeps_cancelledAt_witness :
    (BookingService.handlePendingBookingsTimeout dbPP 360000 5).bookings[0]? =
      some { bookingPP with status := .cancelled, paymentStatus := .failed } :=
  (expiry_sweep_cancel_keeps_cancelledAt dbPP 360000 5 0 bookingPP (by decide)
    (by decide) (by decide) (by decide)).1

/-- Claim C4: when the requested amount and the stored totalPrice round to
different cent values, createPaymentIntent rejects with a validation error, the
Stripe API is never called, and the state is unchanged. -/
theorem create_intent_amount_mismatch_rejected (db : DB) (bookingId : Nat)
    (amount : ℚ) (newIntentId : String) (booking : Booking)
    (hfind : findBookingById db bookingId = some booking)
    (hne : jsRound (amount * 100) ≠ jsRound (booking.totalPrice * 100)) :
    (PaymentService.createPaymentIntent db bookingId amount newIntentId).db = db ∧
    (PaymentService.createPaymentIntent db bookingId amount newIntentId).providerCalled
      = false ∧
    (PaymentService.createPaymentIntent db bookingId amount newIntentId).outcome =
      .error (.badRequest "Amount mismatch") := by
  unfold PaymentService.createPaymentIntent
  rw [hfind]
  simp only []
  rw [if_pos (Ne.symm hne)]
  exact ⟨rfl, rfl, rfl⟩

/-- The cent values of 1400.00 and of the sample booking price 1500.00
differ. -/
theorem cents_mismatch_1400_1500 :
    jsRound (1400 * 100) ≠ jsRound (bookingPP.totalPrice * 100) := by
  show jsRound (1400 * 100) ≠ jsRound (1500 * 100)
  unfold jsRound
  norm_num

/-- Witness for C4: requesting 1400.00 against a 1500.00 booking is rejected
without a provider call. -/
theorem create_intent_amount_mismatch_rejected_witness :
    (PaymentService.createPaymentIntent dbPP 1 1400 "pi_x").db = dbPP ∧
    (PaymentService.createPaymentIntent dbPP 1 1400 "pi_x").providerCalled = false ∧
    (PaymentService.createPaymentIntent dbPP 1 1400 "pi_x").outcome =
      .error (.badRequest "Amount mismatch") :=
  create_intent_amount_mismatch_rejected dbPP 1 1400 "pi_x" bookingPP (by decide)
    cents_mismatch_1400_1500

/-- Claim C8: processRefund rejects (leaving the state untouched) when the
record status is not completed or the requested amount exceeds the recorded
amount; otherwise it sets the status to refunded on a full refund and to
partially_refunded on a smaller one, stamping refundedAt and the reason. -/
theorem process_refund_bounds (db : DB) (pid : Nat) (amount : ℚ) (reason : String)
    (now : Int) (payment : PaymentRecord)
    (hfind : findPaymentById db pid = some payment) :
    (payment.status ≠ .completed →
      (PaymentTransactionService.processRefund db pid amount reason now).db = db ∧
      (PaymentTransactionService.processRefund db pid amount reason now).outcome =
        .error "Cannot refund payment with this status") ∧
    (payment.status = .completed → amount > payment.amount →
      (PaymentTransactionService.processRefund db pid amount reason now).db = db ∧
      (PaymentTransactionService.processRefund db pid amount reason now).outcome =
        .error "Refund amount cannot be greater than payment amount") ∧
    (payment.status = .completed → amount ≤ payment.amount →
      findPaymentById
          (PaymentTransactionService.processRefund db pid amount reason now).db pid =
        some { payment with
          status := if amount = payment.amount then .refunded else .partially_refunded
          refundedAt := some now
          refundReason := some reason }) := by
  have hfind' : db.payments.find? (fun p => p.id = pid) = some payment := hfind
  refine ⟨?_, ?_, ?_⟩
  · intro hstatus
    simp only [PaymentTransactionService.processRefund, hfind]
    rw [if_pos hstatus]
    exact ⟨rfl, rfl⟩
  · intro hstatus hgt
    simp only [PaymentTransactionService.processRefund, hfind]
    rw [if_neg (by simp [hstatus]), if_pos hgt]
    exact ⟨rfl, rfl⟩
  · intro hstatus hle
    simp only [PaymentTransactionService.processRefund, hfind]
    rw [if_neg (by simp [hstatus]), if_neg (not_lt.mpr hle)]
    simp only [findPaymentById]
    rw [findPayment_map_update db.payments pid
      (fun p =>
        { p with
          status := if amount = payment.amount then LedgerStatus.refunded
            else LedgerStatus.partially_refunded
          refundedAt := some now
          refundReason := some reason })
      (fun p => rfl)]
    rw [hfind']
    rfl

/-- Witness for C8: a full refund of the sample completed 1500.00 record. -/
theorem process_refund_bounds_witness :
    findPaymentById
        (PaymentTransactionService.processRefund dbRefund 5 1500 "requested" 9).db 5 =
      some { paymentCompleted with
        status := if (1500 : ℚ) = paymentCompleted.amount then .refunded
          else .partially_refunded
        refundedAt := some 9
        refundReason := some "requested" } :=
  (process_refund_bounds dbRefund 5 1500 "requested" 9 paymentCompleted
    (by decide)).2.2 (by decide) (by decide)

/-- Claim C1 at its failing inputs: redelivering the identical SUCCESS event
is not a no-op on either provider path.  On the Stripe path the second
delivery changes the state, re-stamping the booking paymentCompletedAt with
the redelivery time (200 instead of 100), because the handler carries no
already-completed short circuit.  On the Paymob path the first delivery
creates the ledger record with the createPayment default status pending
instead of completed, and the redelivery then mutates the ledger: the record
becomes completed and its paidAt is stamped with the redelivery time. -/
theorem success_redelivery_not_noop :
    (PaymentService.handlePaymentIntentSucceeded
        (PaymentService.handlePaymentIntentSucceeded dbPP intentPi1 100) intentPi1 200 ≠
      PaymentService.handlePaymentIntentSucceeded dbPP intentPi1 100) ∧
    ((findBookingById (PaymentService.handlePaymentIntentSucceeded
        (PaymentService.handlePaymentIntentSucceeded dbPP intentPi1 100) intentPi1 200) 1).map
        (fun b => b.paymentCompletedAt)) = some (some 200) ∧
    ((PaymobService.handleWebhook dbPP (some txSuccess) none none "" 100).map
        (fun d => (findPaymentByTransactionId d "42").map (fun p => p.status))) =
      .ok (some .pending) ∧
    (((PaymobService.handleWebhook dbPP (some txSuccess) none none "" 100).bind
        (fun d => PaymobService.handleWebhook d (some txSuccess) none none "" 200)).map
        (fun d => (findPaymentByTransactionId d "42").map (fun p => (p.status, p.paidAt)))) =
      .ok (some (LedgerStatus.completed, some 200)) := by decide

/-- Claim C2 at its failing input: a booking made confirmed/completed by a
Paymob SUCCESS webhook, on later receiving the PENDING delivery of the same
transaction (id 42), has its paymentStatus moved from completed back to
pending while status stays confirmed - the pending branch carries no
already-completed short circuit. -/
theorem paymob_pending_after_success_downgrades :
    ((PaymobService.handleWebhook dbPP (some txSuccess) none none "" 100).bind
        (fun db1 => PaymobService.handleWebhook db1 (some txPending) none none "" 200)).map
        (fun db2 => (findBookingById db2 1).map (fun b => (b.status, b.paymentStatus))) =
      .ok (some (.confirmed, .pending)) := by decide

/-- Claim C3 at its failing input: after a Stripe SUCCESS webhook confirms the
booking, a payment_failed webhook for the same intent overwrites paymentStatus
to failed while leaving status confirmed, producing the forbidden pair
(confirmed, failed). -/
theorem stripe_failed_after_success_breaks_invariant :
    (findBookingById
        (PaymentService.handlePaymentIntentFailed
          (PaymentService.handlePaymentIntentSucceeded dbPP intentPi1 100) intentPi1) 1).map
        (fun b => (b.status, b.paymentStatus)) = some (.confirmed, .failed) := by decide

/-- Counterexample to claim C7 as stated: in the default configuration (secret
configured, no fallback-related variable set) the fallback is enabled, and a
structurally valid event whose signature verification fails is processed and
applied - the booking becomes confirmed/completed and no Unauthorized error is
raised. -/
theorem stripe_webhook_default_fallback_counterexample :
    PaymentService.allowFallback defaultStripeCfg = true ∧
    (PaymentService.handleStripeWebhook dbPP defaultStripeCfg (some stripeEvtPi1)
        true false 100).map
        (fun db => (findBookingById db 1).map (fun b => (b.status, b.paymentStatus))) =
      .ok (some (.confirmed, .completed)) := by decide

/-- Claim C7 (amended): the unverified-processing fallback is enabled by
default and disabled only by explicitly setting ALLOW_WEBHOOK_FALLBACK to the
literal false; with it disabled (and outside development/bypass modes), an
event whose signature verification fails is rejected with a BadRequest error
and no state is produced. -/
theorem stripe_webhook_fallback_disabled_rejects (db : DB)
    (cfg : PaymentService.StripeConfig) (rawParsed : Option PaymentService.StripeEvent)
    (signaturePresent : Bool) (now : Int) (secret : String)
    (hsec : cfg.webhookSecret = some secret)
    (hdev : cfg.nodeEnv ≠ some "development")
    (hbyp : cfg.bypassWebhookVerificationEnv ≠ some "true")
    (hfb : cfg.allowWebhookFallbackEnv = some "false") :
    PaymentService.handleStripeWebhook db cfg rawParsed signaturePresent false now =
      .error (.badRequest "Invalid webhook signature") := by
  unfold PaymentService.handleStripeWebhook
  simp [PaymentService.allowFallback, hsec, hdev, hbyp, hfb]

/-- Witness for the amended C7: with ALLOW_WEBHOOK_FALLBACK set to false, the
sample event with a failing signature is rejected. -/
theorem stripe_webhook_fallback_disabled_rejects_witness :
    PaymentService.handleStripeWebhook dbPP
        { webhookSecret := some "whsec_test", allowWebhookFallbackEnv := some "false" }
        (some stripeEvtPi1) true false 100 =
      .error (.badRequest "Invalid webhook signature") :=
  stripe_webhook_fallback_disabled_rejects dbPP
    { webhookSecret := some "whsec_test", allowWebhookFallbackEnv := some "false" }
    (some stripeEvtPi1) true 100 "whsec_test" rfl (by decide) (by decide) rfl

/-- When the signature header or the configured secret is missing (falsy),
processWebhook skips the verification step entirely: its result does not
depend on the computed HMAC value. -/
theorem processWebhook_indep_hmac (tx : PaymobService.PaymobTx)
    (hmacHeader secret : Option String) (h : String)
    (hno : ¬ (strTruthy hmacHeader = true ∧ strTruthy secret = true)) :
    PaymobService.processWebhook tx hmacHeader secret h =
      (if tx.id = 0 ∨ ¬ PaymobService.natTruthy tx.orderId then
        Except.error (.badRequest "Invalid webhook payload")
      else
        Except.ok
          { transactionId := tx.id, orderId := tx.orderId.getD 0,
            amount := (tx.amountCents : ℚ) / 100, isSuccess := tx.success,
            isPending := tx.pending, isError := !tx.success && !tx.pending }) := by
  unfold PaymobService.processWebhook
  rw [if_neg hno]

/-- Claim C10: with the HMAC header absent or the secret unconfigured, the
Paymob webhook handler performs no authenticity verification - its outcome is
independent of the computed HMAC - and never raises an Unauthorized error; the
event is processed like any verified one. -/
theorem paymob_no_hmac_processed_unverified (db : DB) (tx : PaymobService.PaymobTx)
    (hmacSignature secret : Option String) (h1 h2 : String) (now : Int)
    (hno : ¬ (strTruthy hmacSignature = true ∧ strTruthy secret = true)) :
    PaymobService.handleWebhook db (some tx) hmacSignature secret h1 now =
      PaymobService.handleWebhook db (some tx) hmacSignature secret h2 now ∧
    ∀ msg, PaymobService.handleWebhook db (some tx) hmacSignature secret h1 now ≠
      .error (.unauthorized msg) := by
  constructor
  · simp only [PaymobService.handleWebhook]
    rw [processWebhook_indep_hmac tx hmacSignature secret h1 hno,
      processWebhook_indep_hmac tx hmacSignature secret h2 hno]
  · intro msg
    simp only [PaymobService.handleWebhook]
    rw [processWebhook_indep_hmac tx hmacSignature secret h1 hno]
    by_cases hc : tx.id = 0 ∨ ¬ PaymobService.natTruthy tx.orderId = true
    · rw [if_pos hc]
      repeat' split
      all_goals try subst_eqs
      all_goals simp_all
    · rw [if_neg hc]
      repeat' split
      all_goals try subst_eqs
      all_goals simp_all

/-- Witness for C10: a SUCCESS event delivered without any HMAC header against
a configured secret yields the same state for two different computed hashes. -/
theorem paymob_no_hmac_processed_unverified_witness :
    PaymobService.handleWebhook dbPP (some txSuccess) none (some "secret") "hashA" 100 =
      PaymobService.handleWebhook dbPP (some txSuccess) none (some "secret") "hashB" 100 ∧
    PaymobService.handleWebhook dbPP (some txSuccess) none (some "secret") "hashA" 100 ≠
      .error (.unauthorized "Invalid webhook signature") :=
  ⟨(paymob_no_hmac_processed_unverified dbPP txSuccess none (some "secret")
      "hashA" "hashB" 100 (by decide)).1,
    (paymob_no_hmac_processed_unverified dbPP txSuccess none (some "secret")
      "hashA" "hashB" 100 (by decide)).2 "Invalid webhook signature"⟩

/-- When the round-trip validation accepts a supplied flightData list, that
list satisfies the claim-side round-trip predicate. -/
theorem validate_roundtrip_ok_implies_valid (dto : BookingService.CreateBookingDto)
    (legs : List BookingService.FlightLeg) (hlegs : dto.flightData = some legs)
    (hok : BookingService.validateBookingData dto .ROUND_TRIP = .ok ()) :
    claimValidRoundTrip legs := by
  simp only [BookingService.validateBookingData, hlegs] at hok
  split at hok
  · exact Except.noConfusion hok
  split at hok
  · exact Except.noConfusion hok
  rename_i h0 hne2
  have h2 : legs.length = 2 := not_not.mp hne2
  obtain ⟨a, b, rfl⟩ := List.length_eq_two.mp h2
  split at hok
  · rename_i goFlight returnFlight hgo hret
    split at hok
    · exact Except.noConfusion hok
    · rename_i hlt
      cases ha : a.typeOfFlight <;> cases hb : b.typeOfFlight <;>
        simp [List.find?_cons, ha, hb] at hgo hret
      · -- a GO, b RETURN
        subst hgo
        subst hret
        unfold claimValidRoundTrip
        refine ⟨rfl, ?_, ?_, ?_⟩
        · simp [List.countP_cons, ha, hb]
        · simp [List.countP_cons, ha, hb]
        · intro g hg r hr hG hR
          rcases List.mem_pair.mp hg with rfl | rfl <;>
            rcases List.mem_pair.mp hr with rfl | rfl <;>
            simp_all
      · -- a RETURN, b GO
        subst hgo
        subst hret
        unfold claimValidRoundTrip
        refine ⟨rfl, ?_, ?_, ?_⟩
        · simp [List.countP_cons, ha, hb]
        · simp [List.countP_cons, ha, hb]
        · intro g hg r hr hG hR
          rcases List.mem_pair.mp hg with rfl | rfl <;>
            rcases List.mem_pair.mp hr with rfl | rfl <;>
            simp_all
  · exact Except.noConfusion hok

/-- Every rejection raised by validateBookingData is a BadRequest. -/
theorem validateBookingData_error_badRequest (dto : BookingService.CreateBookingDto)
    (bt : BookingService.BookingType) (e : HttpError)
    (h : BookingService.validateBookingData dto bt = .error e) :
    ∃ msg, e = .badRequest msg := by
  unfold BookingService.validateBookingData at h
  cases bt <;> repeat' split at h
  all_goals first
    | exact ⟨_, (Except.error.inj h).symm⟩
    | exact Except.noConfusion h

/-- Claim C9: a round-trip createBooking request whose flightData is missing,
or whose legs do not form exactly one GO and one RETURN with the RETURN
departing strictly after the GO arrival, is rejected with a validation error
and nothing is persisted. -/
theorem round_trip_invalid_rejected (db : DB) (userId : Nat)
    (dto : BookingService.CreateBookingDto) (newId : Nat) (now : Int)
    (hrt : dto.bookingType = some .ROUND_TRIP) :
    (dto.flightData = none →
      (BookingService.createBooking db userId dto newId now).db = db ∧
      ∃ msg, (BookingService.createBooking db userId dto newId now).outcome =
        .error (.badRequest msg)) ∧
    (∀ legs, dto.flightData = some legs → ¬ claimValidRoundTrip legs →
      (BookingService.createBooking db userId dto newId now).db = db ∧
      ∃ msg, (BookingService.createBooking db userId dto newId now).outcome =
        .error (.badRequest msg)) := by
  have hbt : dto.bookingType.getD .ONE_WAY = .ROUND_TRIP := by rw [hrt]; rfl
  constructor
  · intro hfd
    cases hv : BookingService.validateBookingData dto .ROUND_TRIP with
    | error e =>
      obtain ⟨msg, rfl⟩ := validateBookingData_error_badRequest dto _ e hv
      constructor
      · simp only [BookingService.createBooking, hbt, hv]
      · exact ⟨msg, by simp only [BookingService.createBooking, hbt, hv]⟩
    | ok u =>
      cases u
      exfalso
      unfold BookingService.validateBookingData at hv
      rw [hfd] at hv
      exact Except.noConfusion hv
  · intro legs hlegs hnval
    cases hv : BookingService.validateBookingData dto .ROUND_TRIP with
    | error e =>
      obtain ⟨msg, rfl⟩ := validateBookingData_error_badRequest dto _ e hv
      constructor
      · simp only [BookingService.createBooking, hbt, hv]
      · exact ⟨msg, by simp only [BookingService.createBooking, hbt, hv]⟩
    | ok u =>
      cases u
      exact absurd (validate_roundtrip_ok_implies_valid dto legs hlegs hv) hnval

/-- Witness for C9: a round-trip request with two OUTBOUND legs and no RETURN
leg is rejected and persists nothing. -/
theorem round_trip_invalid_rejected_witness :
    (BookingService.createBooking dbPP 7 dtoTwoGo 2 0).db = dbPP ∧
    ∃ msg, (BookingService.createBooking dbPP 7 dtoTwoGo 2 0).outcome =
      .error (.badRequest msg) :=
  (round_trip_invalid_rejected dbPP 7 dtoTwoGo 2 0 rfl).2 [legGO1, legGO2] rfl
    (by decide)

/-- A SUCCESS intent delivered for an existing booking with no ledger record
for its transaction id: the booking is patched to confirmed/completed with the
intent id and the delivery timestamp, and one completed ledger record is
appended. -/
theorem handleSucceeded_first (db : DB) (intent : PaymentService.StripeIntent)
    (bid : Nat) (b0 : Booking) (t : Int)
    (hmeta : intent.metadataBookingId = some bid)
    (hfind : findBookingById db bid = some b0)
    (hnotx : findPaymentByTransactionId db intent.id = none) :
    PaymentService.handlePaymentIntentSucceeded db intent t =
      { bookings := db.bookings.map (fun b =>
          if b.id = bid then
            { b with
              paymentStatus := .completed
              status := .confirmed
              paymentIntentId := some intent.id
              paymentCompletedAt := some t }
          else b)
        payments := db.payments ++
          [{ id := db.nextPaymentId
             userId := b0.userId
             bookingId := b0.id
             amount := PaymentService.intentAmountMajor intent b0.totalPrice
             currency := PaymentService.intentCurrency intent b0.currency
             provider := "stripe"
             status := .completed
             transactionId := some intent.id }]
        nextPaymentId := db.nextPaymentId + 1 } := by
  have hfind' : db.bookings.find? (fun b => b.id = bid) = some b0 := hfind
  have hupd :
      findBookingById (updateBookingById db bid (fun b =>
        { b with
          paymentStatus := .completed
          status := .confirmed
          paymentIntentId := some intent.id
          paymentCompletedAt := some t })) bid =
        some { b0 with
               paymentStatus := .completed
               status := .confirmed
               paymentIntentId := some intent.id
               paymentCompletedAt := some t } := by
    unfold findBookingById updateBookingById
    rw [findBooking_map_update db.bookings bid
      (fun b =>
        { b with
          paymentStatus := .completed
          status := .confirmed
          paymentIntentId := some intent.id
          paymentCompletedAt := some t })
      (fun b => rfl)]
    rw [hfind']
    rfl
  have hpay : findPaymentByTransactionId (updateBookingById db bid (fun b =>
      { b with
        paymentStatus := .completed
        status := .confirmed
        paymentIntentId := some intent.id
        paymentCompletedAt := some t }))
      intent.id = none := hnotx
  simp only [PaymentService.handlePaymentIntentSucceeded, hmeta, hfind, hupd, hpay]
  rfl

/-- A SUCCESS intent delivered when a ledger record for its transaction id
already exists: only the booking patch is applied, no record is created. -/
theorem handleSucceeded_existing (db : DB) (intent : PaymentService.StripeIntent)
    (bid : Nat) (b1 : Booking) (rec : PaymentRecord) (t : Int)
    (hmeta : intent.metadataBookingId = some bid)
    (hfind : findBookingById db bid = some b1)
    (htx : findPaymentByTransactionId db intent.id = some rec) :
    PaymentService.handlePaymentIntentSucceeded db intent t =
      updateBookingById db bid (fun b =>
        { b with
          paymentStatus := .completed
          status := .confirmed
          paymentIntentId := some intent.id
          paymentCompletedAt := some t }) := by
  have hfind' : db.bookings.find? (fun b => b.id = bid) = some b1 := hfind
  have hupd :
      findBookingById (updateBookingById db bid (fun b =>
        { b with
          paymentStatus := .completed
          status := .confirmed
          paymentIntentId := some intent.id
          paymentCompletedAt := some t })) bid =
        some { b1 with
               paymentStatus := .completed
               status := .confirmed
               paymentIntentId := some intent.id
               paymentCompletedAt := some t } := by
    unfold findBookingById updateBookingById
    rw [findBooking_map_update db.bookings bid
      (fun b =>
        { b with
          paymentStatus := .completed
          status := .confirmed
          paymentIntentId := some intent.id
          paymentCompletedAt := some t })
      (fun b => rfl)]
    rw [hfind']
    rfl
  have hpay : findPaymentByTransactionId (updateBookingById db bid (fun b =>
      { b with
        paymentStatus := .completed
        status := .confirmed
        paymentIntentId := some intent.id
        paymentCompletedAt := some t }))
      intent.id = some rec := htx
  simp only [PaymentService.handlePaymentIntentSucceeded, hmeta, hfind, hupd, hpay]

/-- Supporting result for the Stripe path: delivering the same SUCCESS event
twice yields exactly one completed PaymentRecord for the transaction id; the
booking is already confirmed/completed after the first delivery; and the
second delivery changes nothing except re-stamping the booking
paymentCompletedAt with the redelivery time.  (The Paymob path does not enjoy
the analogous property: see the ledger mutation shown at the failing input.) -/
theorem stripe_success_redelivery_once (db : DB) (intent : PaymentService.StripeIntent)
    (bid : Nat) (b0 : Booking) (t1 t2 : Int)
    (hmeta : intent.metadataBookingId = some bid)
    (hfind : findBookingById db bid = some b0)
    (hnotx : findPaymentByTransactionId db intent.id = none) :
    ((PaymentService.handlePaymentIntentSucceeded
        (PaymentService.handlePaymentIntentSucceeded db intent t1) intent t2).payments.countP
        (fun p => p.transactionId = some intent.id ∧ p.status = .completed)) = 1 ∧
    ((findBookingById (PaymentService.handlePaymentIntentSucceeded db intent t1) bid).map
        (fun b => (b.status, b.paymentStatus))) = some (.confirmed, .completed) ∧
    PaymentService.handlePaymentIntentSucceeded
        (PaymentService.handlePaymentIntentSucceeded db intent t1) intent t2 =
      { PaymentService.handlePaymentIntentSucceeded db intent t1 with
        bookings := (PaymentService.handlePaymentIntentSucceeded db intent t1).bookings.map
          (fun b => if b.id = bid then { b with paymentCompletedAt := some t2 } else b) } := by
  have hfind' : db.bookings.find? (fun b => b.id = bid) = some b0 := hfind
  have hnotx' : db.payments.find? (fun p => p.transactionId = some intent.id) = none := hnotx
  have h1 := handleSucceeded_first db intent bid b0 t1 hmeta hfind hnotx
  have hfind1 : findBookingById (PaymentService.handlePaymentIntentSucceeded db intent t1) bid =
      some { b0 with
             paymentStatus := .completed
             status := .confirmed
             paymentIntentId := some intent.id
             paymentCompletedAt := some t1 } := by
    rw [h1]
    unfold findBookingById
    dsimp only
    rw [findBooking_map_update db.bookings bid
      (fun b =>
        { b with
          paymentStatus := .completed
          status := .confirmed
          paymentIntentId := some intent.id
          paymentCompletedAt := some t1 })
      (fun b => rfl)]
    rw [hfind']
    rfl
  have hrec1 : findPaymentByTransactionId
      (PaymentService.handlePaymentIntentSucceeded db intent t1) intent.id =
      some { id := db.nextPaymentId
             userId := b0.userId
             bookingId := b0.id
             amount := PaymentService.intentAmountMajor intent b0.totalPrice
             currency := PaymentService.intentCurrency intent b0.currency
             provider := "stripe"
             status := .completed
             transactionId := some intent.id } := by
    rw [h1]
    unfold findPaymentByTransactionId
    dsimp only
    rw [List.find?_append, hnotx']
    simp [List.find?_cons]
  have h2 := handleSucceeded_existing
    (PaymentService.handlePaymentIntentSucceeded db intent t1) intent bid _ _ t2
    hmeta hfind1 hrec1
  refine ⟨?_, ?_, ?_⟩
  · rw [h2]
    have hpays : (updateBookingById (PaymentService.handlePaymentIntentSucceeded db intent t1)
        bid (fun b =>
          { b with
            paymentStatus := .completed
            status := .confirmed
            paymentIntentId := some intent.id
            paymentCompletedAt := some t2 })).payments =
        db.payments ++
          [{ id := db.nextPaymentId
             userId := b0.userId
             bookingId := b0.id
             amount := PaymentService.intentAmountMajor intent b0.totalPrice
             currency := PaymentService.intentCurrency intent b0.currency
             provider := "stripe"
             status := .completed
             transactionId := some intent.id }] := by
      rw [updateBookingById, h1]
    rw [hpays, List.countP_append]
    have hz : db.payments.countP
        (fun p => p.transactionId = some intent.id ∧ p.status = .completed) = 0 := by
      rw [List.countP_eq_zero]
      intro p hp
      have hnp := List.find?_eq_none.mp hnotx' p hp
      simp only [decide_eq_true_eq] at hnp ⊢
      exact fun h => hnp h.1
    rw [hz]
    simp [List.countP_cons]
  · rw [hfind1]
    rfl
  · rw [h2]
    unfold updateBookingById
    congr 1
    have hX : (PaymentService.handlePaymentIntentSucceeded db intent t1).bookings =
        db.bookings.map (fun b =>
          if b.id = bid then
            { b with
              paymentStatus := .completed
              status := .confirmed
              paymentIntentId := some intent.id
              paymentCompletedAt := some t1 }
          else b) := by
      rw [h1]
    rw [hX, List.map_map, List.map_map]
    apply List.map_congr_left
    intro a _
    by_cases h : a.id = bid
    · simp [h]
    · simp [h]


/-- Exercise of the Stripe redelivery result at the sample input: the SUCCESS
intent delivered twice against the fresh booking leaves exactly one completed
record for pi_1. -/
theorem stripe_success_redelivery_once_witness :
    ((PaymentService.handlePaymentIntentSucceeded
        (PaymentService.handlePaymentIntentSucceeded dbPP intentPi1 100)
        intentPi1 200).payments.countP
        (fun p => p.transactionId = some intentPi1.id ∧ p.status = .completed)) = 1 :=
  (stripe_success_redelivery_once dbPP intentPi1 1 bookingPP 100 200 rfl
    (by decide) rfl).1

end BackendGrad
